import Mathlib

/-!
Verification of the Dockerfile wizard of the aks-devx-tools extension
(src/commands/runDraftTool/runDraftDockerfile.ts), shallowly embedded.

The wizard collects four answers (source folder, language, version, port)
through prompt steps and then runs four execute steps by ascending priority:
invoke the external Draft binary, open the generated files, persist state,
and show a follow-up modal that can dispatch another registered command.
Effects are modelled as explicit lists; throwing is modelled as an error
value; the results of external calls (the dialog choice, the binary run,
the modal button, the filesystem) are passed in as parameters.
-/

/-- A folder or file reference of the host editor, with its two path views. -/
structure Uri where
  path : String
  fsPath : String
deriving DecidableEq, Repr

/-- A workspace folder of the host editor, as used by runDraftDockerfile. -/
structure WorkspaceFolder where
  uri : Uri
deriving DecidableEq, Repr

/-- Catalog entry for a language supported by the Draft tool: name, id and
the list of supported version strings. -/
structure DraftLanguage where
  name : String
  id : String
  versions : List String
deriving DecidableEq, Repr

/-- The wizard context: the four collected answers, each possibly missing.
Embeds the PromptContext fields of WizardContext. -/
structure WizardContext where
  sourceCodeFolder : Option Uri := none
  language : Option DraftLanguage := none
  version : Option String := none
  port : Option String := none
deriving DecidableEq, Repr

/-- Modelled from the spec: CompletedSteps (model/guidedExperience, not under
src/) is a shared mutable flags record that records that the Dockerfile was
created; the only field this wizard touches is draftDockerfile. -/
structure CompletedSteps where
  draftDockerfile : Bool := false
deriving DecidableEq, Repr

/-- Path separator, as used by the path module on POSIX. -/
def pathSep : String := "/"

/-- Embeds path.join for the shapes used here: joins two segments with the
separator, avoiding a doubled separator. -/
def pathJoin (a b : String) : String :=
  if a = "" then b
  else if a.endsWith pathSep then a ++ b
  else a ++ pathSep ++ b

def dockerfileName : String := "Dockerfile"

def dockerignoreName : String := ".dockerignore"

def errSourceCodeFolderUndefined : String := "Source code folder is undefined"

def errLanguageUndefined : String := "Language is undefined"

def errPortUndefined : String := "Port is undefined"

def errVersionUndefined : String := "Version is undefined"

def errFolderNotInWorkspace : String :=
  "Chosen Source Code Folder is not in current workspace. Please choose a folder in the workspace"

def errDownloadFailed : String := "Failed to download Draft"

def draftFailedMsgHead : String := "Draft command failed: "

def buildAcrButton : String := "Build"

def acrModalMsg : String :=
  "The Dockerfile was created. Next, build the image on Azure Container Registry."

def runBuildAcrImageCommand : String := "aks-draft-extension.runBuildAcrImage"

def dockerfileOutputKind : String := "dockerfile"

def emptyStr : String := ""

def jsUndefinedWord : String := "undefined"

/-- Renders an optional string the way a JS template literal does:
an undefined value prints as the word undefined. -/
def jsShow : Option String → String
  | none => jsUndefinedWord
  | some s => s

/-- Embeds the JS test x?.length === 0: true exactly when the value is a
defined empty string (for undefined, undefined === 0 is false). -/
def jsOptLenIsZero : Option String → Bool
  | none => false
  | some s => s.length == 0

/-- Embeds getDockerfilePath: the Dockerfile lives at the root of the chosen
source folder; throws when the folder is undefined. -/
def getDockerfilePath (ctx : WizardContext) : Except String String :=
  match ctx.sourceCodeFolder with
  | none => Except.error errSourceCodeFolderUndefined
  | some f => Except.ok (pathJoin f.path dockerfileName)

/-- Embeds getDockerignorePath: the dockerignore file lives at the root of
the chosen source folder; throws when the folder is undefined. -/
def getDockerignorePath (ctx : WizardContext) : Except String String :=
  match ctx.sourceCodeFolder with
  | none => Except.error errSourceCodeFolderUndefined
  | some f => Except.ok (pathJoin f.path dockerignoreName)

/-- Embeds PromptDockerfileOverride.shouldPrompt: prompt exactly when the
target Dockerfile already exists on disk; the filesystem is passed in as the
existsSync oracle. -/
def shouldPromptDockerfileOverride (fsExists : String → Bool) (ctx : WizardContext) :
    Except String Bool :=
  match getDockerfilePath ctx with
  | Except.error e => Except.error e
  | Except.ok p => Except.ok (if fsExists p then true else false)

/-- Embeds PromptSourceCodeFolder.prompt after the dialog returned a chosen
folder: validate the choice is inside the workspace, then write it into the
context; on failure the context is returned unchanged with the error. -/
def PromptSourceCodeFolder.prompt (inWorkspace : Uri → Bool) (chosen : Uri)
    (ctx : WizardContext) : WizardContext × Option String :=
  if inWorkspace chosen then
    ({ ctx with sourceCodeFolder := some chosen }, none)
  else (ctx, some errFolderNotInWorkspace)

/-- Embeds line 97 of the source: the default of the folder-choice dialog is
the sourceCodeFolder currently in the wizard context. -/
def showOpenDialogDefaultUri (ctx : WizardContext) : Option Uri :=
  ctx.sourceCodeFolder

/-- An observable effect performed by an execute step. -/
inductive Effect where
  | runDraft (command : String)
  | openDoc (filePath : String)
  | setPort (port : String)
  | setDockerfile (filePath : String)
  | showModal (message : String)
  | executeCommand (commandName : String)
deriving DecidableEq, Repr

/-- Outcome of one execute step: the effects it performed, in order, and the
error it threw, if any (effects listed before the error still happened). -/
structure StepResult where
  effects : List Effect
  error : Option String
deriving DecidableEq, Repr

def fieldSep : String := "|"

/-- Modelled from the spec: buildCreateConfig (helper/draftCommandBuilder,
not under src/) generates a config file from the collected answers and
returns its path; we record its seven arguments in the returned string. -/
def buildCreateConfig (languageId port a3 a4 version a6 a7 : String) : String :=
  languageId ++ fieldSep ++ port ++ fieldSep ++ a3 ++ fieldSep ++ a4 ++ fieldSep
    ++ version ++ fieldSep ++ a6 ++ fieldSep ++ a7

/-- Modelled from the spec: buildCreateCommand (helper/draftCommandBuilder,
not under src/) assembles the external binary command line from the folder
path, the output kind and the generated config path. -/
def buildCreateCommand (dest outputKind configPath : String) : String :=
  dest ++ fieldSep ++ outputKind ++ fieldSep ++ configPath

def ExecuteDraft.priority : Nat := 1

/-- Embeds ExecuteDraft.execute: check the four context fields in source
order, build the command, run the binary (its result is passed in as a pair
of output and error output), and throw unless the error output is empty and
the output is not. -/
def ExecuteDraft.execute (runDraftResult : Option String × Option String)
    (ctx : WizardContext) : StepResult :=
  match ctx.language with
  | none => ⟨[], some errLanguageUndefined⟩
  | some language =>
    match ctx.port with
    | none => ⟨[], some errPortUndefined⟩
    | some port =>
      match ctx.sourceCodeFolder with
      | none => ⟨[], some errSourceCodeFolderUndefined⟩
      | some sourceCodeFolder =>
        match ctx.version with
        | none => ⟨[], some errVersionUndefined⟩
        | some version =>
          let configPath :=
            buildCreateConfig language.id port emptyStr emptyStr version emptyStr emptyStr
          let command :=
            buildCreateCommand sourceCodeFolder.fsPath dockerfileOutputKind configPath
          let success := runDraftResult.1
          let err := runDraftResult.2
          let isSuccess := jsOptLenIsZero err && !(jsOptLenIsZero success)
          if isSuccess then ⟨[Effect.runDraft command], none⟩
          else ⟨[Effect.runDraft command], some (draftFailedMsgHead ++ jsShow err)⟩

def ExecuteDraft.shouldExecute (ctx : WizardContext) : Bool := true

def ExecuteOpenDockerfiles.priority : Nat := 2

/-- Embeds ExecuteOpenDockerfiles.execute: compute both paths (throwing when
the folder is undefined), then open the dockerignore file and the Dockerfile
as editor documents, in that order. -/
def ExecuteOpenDockerfiles.execute (ctx : WizardContext) : StepResult :=
  match getDockerignorePath ctx with
  | Except.error e => ⟨[], some e⟩
  | Except.ok dockerignorePath =>
    match getDockerfilePath ctx with
    | Except.error e => ⟨[], some e⟩
    | Except.ok dockerPath =>
      ⟨[Effect.openDoc dockerignorePath, Effect.openDoc dockerPath], none⟩

def ExecuteOpenDockerfiles.shouldExecute (ctx : WizardContext) : Bool := true

def ExecuteSaveState.priority : Nat := 3

/-- Embeds ExecuteSaveState.execute: persist the port when it is defined
(silently skipping when not), then compute the Dockerfile path (throwing
when the folder is undefined) and persist it. -/
def ExecuteSaveState.execute (ctx : WizardContext) : StepResult :=
  let portEffects : List Effect :=
    match ctx.port with
    | some port => [Effect.setPort port]
    | none => []
  match getDockerfilePath ctx with
  | Except.error e => ⟨portEffects, some e⟩
  | Except.ok dockerfilePath => ⟨portEffects ++ [Effect.setDockerfile dockerfilePath], none⟩

def ExecuteSaveState.shouldExecute (ctx : WizardContext) : Bool := true

def ExecutePromptAcr.priority : Nat := 4

/-- Embeds ExecutePromptAcr.execute: show the modal (the button the user
pressed, if any, is passed in); when the Build button was chosen, set the
draftDockerfile flag and dispatch the runBuildAcrImage command with the
shared flags record; otherwise do nothing more. Never throws. -/
def ExecutePromptAcr.execute (modalInput : Option String) (completedSteps : CompletedSteps)
    (ctx : WizardContext) : StepResult × CompletedSteps :=
  if modalInput = some buildAcrButton then
    (⟨[Effect.showModal acrModalMsg, Effect.executeCommand runBuildAcrImageCommand], none⟩,
     { completedSteps with draftDockerfile := true })
  else
    (⟨[Effect.showModal acrModalMsg], none⟩, completedSteps)

def ExecutePromptAcr.shouldExecute (ctx : WizardContext) : Bool := true

/-- The four execute steps, as names. -/
inductive ExecStep where
  | draft
  | openDockerfiles
  | saveState
  | promptAcr
deriving DecidableEq, Repr

/-- The priority field of each execute step class. -/
def ExecStep.priority : ExecStep → Nat
  | ExecStep.draft => ExecuteDraft.priority
  | ExecStep.openDockerfiles => ExecuteOpenDockerfiles.priority
  | ExecStep.saveState => ExecuteSaveState.priority
  | ExecStep.promptAcr => ExecutePromptAcr.priority

/-- The shouldExecute predicate of each execute step class. -/
def ExecStep.shouldExecute : ExecStep → WizardContext → Bool
  | ExecStep.draft, ctx => ExecuteDraft.shouldExecute ctx
  | ExecStep.openDockerfiles, ctx => ExecuteOpenDockerfiles.shouldExecute ctx
  | ExecStep.saveState, ctx => ExecuteSaveState.shouldExecute ctx
  | ExecStep.promptAcr, ctx => ExecutePromptAcr.shouldExecute ctx

/-- The executeSteps list of runDraftDockerfile, in listed order. -/
def executeSteps : List ExecStep :=
  [ExecStep.draft, ExecStep.openDockerfiles, ExecStep.saveState, ExecStep.promptAcr]

/-- The execute sequence run by the wizard: steps in ascending priority
order, each later step running only when no earlier step threw. Returns the
accumulated effects, the first error, and the final flags record. -/
def runExecuteSequence (runDraftResult : Option String × Option String)
    (modalInput : Option String) (completedSteps : CompletedSteps)
    (ctx : WizardContext) : List Effect × Option String × CompletedSteps :=
  let r1 := ExecuteDraft.execute runDraftResult ctx
  match r1.error with
  | some e => (r1.effects, some e, completedSteps)
  | none =>
    let r2 := ExecuteOpenDockerfiles.execute ctx
    match r2.error with
    | some e => (r1.effects ++ r2.effects, some e, completedSteps)
    | none =>
      let r3 := ExecuteSaveState.execute ctx
      match r3.error with
      | some e => (r1.effects ++ r2.effects ++ r3.effects, some e, completedSteps)
      | none =>
        let r4cs := ExecutePromptAcr.execute modalInput completedSteps ctx
        (r1.effects ++ r2.effects ++ r3.effects ++ r4cs.1.effects, r4cs.1.error, r4cs.2)

/-- Top-level observable actions of runDraftDockerfile before and around the
wizard run. -/
inductive TopEffect where
  | showErrorMessage (message : String)
  | wizardPrompt
  | wizardExecute
deriving DecidableEq, Repr

/-- Embeds runDraftDockerfile up to the wizard run: when the binary download
failed, show the error and return undefined; otherwise default the folder
argument to the first workspace folder when absent, build the wizard context
and run prompt then execute. Returns the top-level effects and the wizard
context when the wizard was constructed. -/
def runDraftDockerfile (downloadResult : Bool)
    (workspaceFolders : Option (List WorkspaceFolder))
    (sourceCodeFolder : Option Uri) : List TopEffect × Option WizardContext :=
  if !downloadResult then
    ([TopEffect.showErrorMessage errDownloadFailed], none)
  else
    let folder :=
      match sourceCodeFolder, workspaceFolders with
      | none, some (w :: _) => some w.uri
      | other, _ => other
    let wizardContext : WizardContext := { sourceCodeFolder := folder }
    ([TopEffect.wizardPrompt, TopEffect.wizardExecute], some wizardContext)

/-! Concrete fixtures used by witnesses and counterexamples. -/

def demoPath : String := "/ws/app"

def demoUri : Uri := { path := demoPath, fsPath := demoPath }

def goName : String := "Go"

def goId : String := "go"

def goVersion : String := "1.20"

def demoLanguage : DraftLanguage := { name := goName, id := goId, versions := [goVersion] }

def demoPort : String := "8080"

def fullCtx : WizardContext :=
  { sourceCodeFolder := some demoUri, language := some demoLanguage,
    version := some goVersion, port := some demoPort }

def emptyCtx : WizardContext := {}

def ctxPortOnly : WizardContext := { port := some demoPort }

def ctxFolderOnly : WizardContext := { sourceCodeFolder := some demoUri }

def csFalse : CompletedSteps := { draftDockerfile := false }

def okStr : String := "created"

def noFile : String → Bool := fun x => false

def inWorkspaceAll : Uri → Bool := fun x => true

/-! Helper lemmas shared across claims. -/

theorem executeDraft_missing (rr : Option String × Option String) (ctx : WizardContext)
    (h : ctx.sourceCodeFolder = none ∨ ctx.language = none ∨
         ctx.version = none ∨ ctx.port = none) :
    (ExecuteDraft.execute rr ctx).error.isSome = true ∧
    (ExecuteDraft.execute rr ctx).effects = [] := by
  obtain ⟨scf, lang, ver, port⟩ := ctx
  unfold ExecuteDraft.execute
  rcases lang with _ | lang
  · exact ⟨rfl, rfl⟩
  rcases port with _ | port
  · exact ⟨rfl, rfl⟩
  rcases scf with _ | scf
  · exact ⟨rfl, rfl⟩
  rcases ver with _ | ver
  · exact ⟨rfl, rfl⟩
  simp [WizardContext.sourceCodeFolder, WizardContext.language,
        WizardContext.version, WizardContext.port] at h

theorem openDockerfiles_error_iff (ctx : WizardContext) :
    (ExecuteOpenDockerfiles.execute ctx).error.isSome = true ↔
      ctx.sourceCodeFolder = none := by
  unfold ExecuteOpenDockerfiles.execute getDockerignorePath getDockerfilePath
  cases h : ctx.sourceCodeFolder <;> simp [h]

theorem saveState_error_iff (ctx : WizardContext) :
    (ExecuteSaveState.execute ctx).error.isSome = true ↔
      ctx.sourceCodeFolder = none := by
  unfold ExecuteSaveState.execute getDockerfilePath
  cases h : ctx.sourceCodeFolder <;> cases hp : ctx.port <;> simp [h, hp]

theorem promptAcr_no_error (mi : Option String) (cs : CompletedSteps)
    (ctx : WizardContext) :
    (ExecutePromptAcr.execute mi cs ctx).1.error = none := by
  unfold ExecutePromptAcr.execute
  split <;> rfl

/-! Claim theorems. -/

/-- Claim C1 counterexample: the priority-4 execute step ExecutePromptAcr
does not throw even when all four context fields are undefined, so it is not
the case that every execute step throws whenever a field is absent. -/
theorem C1_counterexample :
    emptyCtx.sourceCodeFolder = none ∧ emptyCtx.language = none ∧
    emptyCtx.version = none ∧ emptyCtx.port = none ∧
    (ExecutePromptAcr.execute none csFalse emptyCtx).1.error = none :=
  ⟨rfl, rfl, rfl, rfl, rfl⟩

/-- Claim C1 amended: only the priority-1 step ExecuteDraft throws before
performing any effect whenever any of the four fields is undefined; the
priority-2 and priority-3 steps throw exactly when sourceCodeFolder is
undefined (so a missing language, version or port alone does not make them
throw), and the priority-4 step never throws. -/
theorem C1_amended (rr : Option String × Option String) (mi : Option String)
    (cs : CompletedSteps) (ctx : WizardContext)
    (h : ctx.sourceCodeFolder = none ∨ ctx.language = none ∨
         ctx.version = none ∨ ctx.port = none) :
    ((ExecuteDraft.execute rr ctx).error.isSome = true ∧
     (ExecuteDraft.execute rr ctx).effects = []) ∧
    ((ExecuteOpenDockerfiles.execute ctx).error.isSome = true ↔
      ctx.sourceCodeFolder = none) ∧
    ((ExecuteSaveState.execute ctx).error.isSome = true ↔
      ctx.sourceCodeFolder = none) ∧
    (ExecutePromptAcr.execute mi cs ctx).1.error = none :=
  ⟨executeDraft_missing rr ctx h,
   openDockerfiles_error_iff ctx,
   saveState_error_iff ctx,
   promptAcr_no_error mi cs ctx⟩

/-- Claim C1 witness: the amended claim at a concrete context that has only
the port defined. -/
theorem C1_amended_witness :
    (ctxPortOnly.sourceCodeFolder = none ∨ ctxPortOnly.language = none ∨
     ctxPortOnly.version = none ∨ ctxPortOnly.port = none) ∧
    (((ExecuteDraft.execute (none, none) ctxPortOnly).error.isSome = true ∧
      (ExecuteDraft.execute (none, none) ctxPortOnly).effects = []) ∧
     ((ExecuteOpenDockerfiles.execute ctxPortOnly).error.isSome = true ↔
       ctxPortOnly.sourceCodeFolder = none) ∧
     ((ExecuteSaveState.execute ctxPortOnly).error.isSome = true ↔
       ctxPortOnly.sourceCodeFolder = none) ∧
     (ExecutePromptAcr.execute none csFalse ctxPortOnly).1.error = none) :=
  ⟨Or.inl rfl, C1_amended (none, none) none csFalse ctxPortOnly (Or.inl rfl)⟩

/-- Claim C2: the four execute steps have strictly ascending priorities
one to four matching their listed order, and every shouldExecute predicate
returns true for every wizard context. -/
theorem C2_execute_order :
    executeSteps.map ExecStep.priority = [1, 2, 3, 4] ∧
    List.Chain' (fun a b => a < b) (executeSteps.map ExecStep.priority) ∧
    ∀ (s : ExecStep) (ctx : WizardContext), s.shouldExecute ctx = true := by
  refine ⟨rfl, ?_, ?_⟩
  · show List.Chain' (fun a b => a < b) ([1, 2, 3, 4] : List Nat)
    norm_num [List.chain'_cons, List.chain'_singleton]
  · intro s ctx
    cases s <;> rfl

/-- Claim C3: with a defined sourceCodeFolder, the overwrite-warning step is
skipped (shouldPrompt returns false) iff the Dockerfile at the root of the
chosen folder does not exist on disk. -/
theorem C3_override_skip_iff (fsExists : String → Bool) (ctx : WizardContext)
    (f : Uri) (h : ctx.sourceCodeFolder = some f) :
    (shouldPromptDockerfileOverride fsExists ctx = Except.ok false ↔
      fsExists (pathJoin f.path dockerfileName) = false) := by
  unfold shouldPromptDockerfileOverride getDockerfilePath
  rw [h]
  cases hfs : fsExists (pathJoin f.path dockerfileName) <;> simp [hfs]

/-- Claim C3 witness: on a filesystem with no files the step is skipped. -/
theorem C3_witness :
    ctxFolderOnly.sourceCodeFolder = some demoUri ∧
    (shouldPromptDockerfileOverride noFile ctxFolderOnly = Except.ok false ↔
      noFile (pathJoin demoUri.path dockerfileName) = false) :=
  ⟨rfl, C3_override_skip_iff noFile ctxFolderOnly demoUri rfl⟩

/-- Claim C4 counterexample: with an empty output and an empty error output
the priority-1 step throws, although the claimed failure condition (empty
output combined with non-empty error output) does not hold there. -/
theorem C4_counterexample :
    (ExecuteDraft.execute (some emptyStr, some emptyStr) fullCtx).error.isSome = true ∧
    ¬ (jsOptLenIsZero (some emptyStr) = true ∧ jsOptLenIsZero (some emptyStr) = false) :=
  ⟨rfl, by decide⟩

/-- Claim C4 amended: with all four fields defined, the priority-1 step
succeeds exactly when the error output is a defined empty string and the
output is not a defined empty string; in every other outcome of the
invocation it throws. -/
theorem C4_amended (success err : Option String) (ctx : WizardContext)
    (l : DraftLanguage) (v p : String) (f : Uri)
    (hl : ctx.language = some l) (hp : ctx.port = some p)
    (hf : ctx.sourceCodeFolder = some f) (hv : ctx.version = some v) :
    ((ExecuteDraft.execute (success, err) ctx).error = none ↔
      (jsOptLenIsZero err = true ∧ jsOptLenIsZero success = false)) := by
  unfold ExecuteDraft.execute
  rw [hl, hp, hf, hv]
  cases hje : jsOptLenIsZero err <;> cases hjs : jsOptLenIsZero success <;>
    simp [hje, hjs]

/-- Claim C4 witness: the amended claim at a run with non-empty output and
empty error output, where the step succeeds. -/
theorem C4_amended_witness :
    fullCtx.language = some demoLanguage ∧
    ((ExecuteDraft.execute (some okStr, some emptyStr) fullCtx).error = none ↔
      (jsOptLenIsZero (some emptyStr) = true ∧ jsOptLenIsZero (some okStr) = false)) :=
  ⟨rfl, C4_amended (some okStr) (some emptyStr) fullCtx demoLanguage goVersion demoPort
    demoUri rfl rfl rfl rfl⟩

/-- Claim C5: the priority-4 step dispatches the runBuildAcrImage command
iff the modal input is the Build button; for any other modal outcome no
command is dispatched. -/
theorem C5_dispatch_iff_build (mi : Option String) (cs : CompletedSteps)
    (ctx : WizardContext) :
    (Effect.executeCommand runBuildAcrImageCommand ∈
      (ExecutePromptAcr.execute mi cs ctx).1.effects) ↔ mi = some buildAcrButton := by
  unfold ExecutePromptAcr.execute
  split
  · rename_i h
    simp [h]
  · rename_i h
    simp [h]

/-- Claim C6 counterexample: with a successful draft run and the modal
dismissed, the execute sequence completes without error yet the
draftDockerfile flag stays false. -/
theorem C6_counterexample :
    (ExecuteDraft.execute (some okStr, some emptyStr) fullCtx).error = none ∧
    (runExecuteSequence (some okStr, some emptyStr) none csFalse fullCtx).2.1 = none ∧
    (runExecuteSequence (some okStr, some emptyStr) none csFalse fullCtx).2.2.draftDockerfile
      = false :=
  ⟨rfl, rfl, rfl⟩

/-- Claim C6 amended: the draftDockerfile flag is set to true exactly when
the user chooses the Build button in the priority-4 modal; otherwise it
keeps its previous value, so completing the sequence with the Dockerfile
created does not by itself record the creation. -/
theorem C6_amended (mi : Option String) (cs : CompletedSteps) (ctx : WizardContext) :
    (ExecutePromptAcr.execute mi cs ctx).2.draftDockerfile =
      (if mi = some buildAcrButton then true else cs.draftDockerfile) := by
  unfold ExecutePromptAcr.execute
  split <;> rfl

/-- Claim C7: the folder-choice step fails and leaves sourceCodeFolder
unchanged when the chosen folder is outside the workspace, and writes the
chosen folder into the context when it is inside. -/
theorem C7_folder_validation (inWorkspace : Uri → Bool) (chosen : Uri)
    (ctx : WizardContext) :
    (inWorkspace chosen = false →
      PromptSourceCodeFolder.prompt inWorkspace chosen ctx =
        (ctx, some errFolderNotInWorkspace) ∧
      (PromptSourceCodeFolder.prompt inWorkspace chosen ctx).1.sourceCodeFolder =
        ctx.sourceCodeFolder) ∧
    (inWorkspace chosen = true →
      PromptSourceCodeFolder.prompt inWorkspace chosen ctx =
        ({ ctx with sourceCodeFolder := some chosen }, none)) := by
  unfold PromptSourceCodeFolder.prompt
  constructor
  · intro h
    rw [h]
    exact ⟨rfl, rfl⟩
  · intro h
    rw [h]
    rfl

/-- Claim C7 witness: choosing a folder that is inside the workspace writes
it into the context. -/
theorem C7_witness :
    inWorkspaceAll demoUri = true ∧
    PromptSourceCodeFolder.prompt inWorkspaceAll demoUri emptyCtx =
      ({ emptyCtx with sourceCodeFolder := some demoUri }, none) :=
  ⟨rfl, (C7_folder_validation inWorkspaceAll demoUri emptyCtx).2 rfl⟩

/-- Claim C8: with a defined sourceCodeFolder, the Dockerfile and
dockerignore paths are exactly the chosen folder path joined with the two
conventional file names, at the root of the folder. -/
theorem C8_paths_at_root (ctx : WizardContext) (f : Uri)
    (h : ctx.sourceCodeFolder = some f) :
    getDockerfilePath ctx = Except.ok (pathJoin f.path dockerfileName) ∧
    getDockerignorePath ctx = Except.ok (pathJoin f.path dockerignoreName) := by
  unfold getDockerfilePath getDockerignorePath
  rw [h]
  exact ⟨rfl, rfl⟩

/-- Claim C8 witness: the two paths at a concrete folder. -/
theorem C8_witness :
    ctxFolderOnly.sourceCodeFolder = some demoUri ∧
    (getDockerfilePath ctxFolderOnly = Except.ok (pathJoin demoUri.path dockerfileName) ∧
     getDockerignorePath ctxFolderOnly = Except.ok (pathJoin demoUri.path dockerignoreName)) :=
  ⟨rfl, C8_paths_at_root ctxFolderOnly demoUri rfl⟩

/-- Claim C9: when the Draft binary download fails, runDraftDockerfile shows
the download error message and returns undefined; the wizard prompt and
execute phases never run, so no step runs and no state is written. -/
theorem C9_download_failure (ws : Option (List WorkspaceFolder)) (scf : Option Uri) :
    runDraftDockerfile false ws scf = ([TopEffect.showErrorMessage errDownloadFailed], none) ∧
    TopEffect.wizardPrompt ∉ (runDraftDockerfile false ws scf).1 ∧
    TopEffect.wizardExecute ∉ (runDraftDockerfile false ws scf).1 := by
  refine ⟨rfl, ?_, ?_⟩ <;> simp [runDraftDockerfile]

/-- Claim C10: with an undefined folder argument and a non-empty workspace,
the wizard context starts from the first workspace folder uri, which is the
default selection of the folder-choice dialog. -/
theorem C10_default_folder (w : WorkspaceFolder) (rest : List WorkspaceFolder) :
    (runDraftDockerfile true (some (w :: rest)) none).2 =
      some { sourceCodeFolder := some w.uri } ∧
    showOpenDialogDefaultUri { sourceCodeFolder := some w.uri } = some w.uri :=
  ⟨rfl, rfl⟩
